import Mathlib

/-!
Verification of `sea/server/multiprocessing.py`: a multi-process gRPC server
supervisor.  The master process reserves a reusable port, spawns worker
processes, joins them, and coordinates graceful shutdown via signal handlers.

The embedding models each method as a pure function producing a trace of
observable events (log lines, signal broadcasts, sleeps, kills, socket
operations) together with the updated server state.  OS behaviour that the
code consults (whether `SO_REUSEPORT` is accepted, which ephemeral port a
bind of port 0 receives) is a parameter `SockOS`.
-/

namespace Sea

/-- A `multiprocessing.Process` handle tracked in `self.workers`:
its pid and whether `is_alive()` currently reports true. -/
structure WorkerProcess where
  pid : Nat
  alive : Bool
deriving DecidableEq, Repr

/-- The grpc server object a worker process stores into `self.server`.
Opaque to the supervisor logic; only its presence matters. -/
structure ServerHandle where
  id : Nat
deriving DecidableEq, Repr

/-- The configuration entries read by the server (docstring of the module). -/
structure Config where
  GRPC_WORKERS : Nat
  GRPC_THREADS : Option Nat
  GRPC_HOST : String
  GRPC_PORT : Nat
  GRPC_GRACE : Option Int
  PROMETHEUS_SCRAPE : Bool
  PROMETHEUS_PORT : Nat
deriving DecidableEq, Repr

/-- The mutable attributes of a `Server` instance set in `__init__`:
`self.workers`, `self._stopped` and `self.server`. -/
structure ServerState where
  workers : List WorkerProcess
  stopped : Bool
  server : Option ServerHandle
deriving DecidableEq, Repr

/-- The OS behaviour the code observes: whether the `SO_REUSEPORT` option
reads back nonzero after being set, and which port the OS assigns when
binding port 0. -/
structure SockOS where
  reuseportOk : Bool
  ephemeralPort : Nat
deriving DecidableEq, Repr

/-- Observable events emitted by the server code, in program order. -/
inductive Event where
  | startPrometheusHttp (port : Nat)
  | registerSignals
  | sockOpen
  | setReuseport
  | bindSock (host : String) (port : Nat)
  | sockClose
  | spawn (bindAddress : String)
  | join (pid : Nat)
  | logMasterReceived (signum : Nat) (grace : Int)
  | serverStoppedSignal
  | sleep (secs : Int)
  | logStillAlive (pid : Nat) (grace : Int)
  | kill (pid : Nat)
  | logMasterExit
  | logSlaveReceived (signum : Nat)
  | serverStop (deadline : Int)
  | cleanPrometheus
deriving DecidableEq, Repr

/-- `Server.__init__`: `self.workers = []`, `self._stopped = False`,
`self.server = None`. -/
def initServerState : ServerState :=
  { workers := [], stopped := false, server := none }

/-- The grace computation at the head of `Server._stop_handler`:
`max(self.app.config['GRPC_GRACE'], 5) if self.app.config['GRPC_GRACE'] else 5`.
`none` models an unset / `None` entry; `some 0` is falsy in Python. -/
def effectiveGrace : Option Int → Int
  | none => 5
  | some v => if v ≠ 0 then max v 5 else 5

namespace Server

/-- `Server._stop_handler(signum, frame)`: branches on `self.server`.
Master branch (`self.server` is `None`): log, broadcast `server_stopped`,
sleep the full grace, then for each tracked worker that is still alive log
and `kill()` it, and log exit.  Worker branch: broadcast `server_stopped`,
log, `self.server.stop(grace - 3)`, sleep `grace - 3`.
Returns the emitted trace and the resulting state (killed workers are no
longer alive). -/
def stop_handler (cfg : Config) (st : ServerState) (signum : Nat) :
    List Event × ServerState :=
  let grace := effectiveGrace cfg.GRPC_GRACE
  match st.server with
  | none =>
      ([Event.logMasterReceived signum grace, Event.serverStoppedSignal,
        Event.sleep grace]
        ++ st.workers.flatMap (fun w =>
            if w.alive then [Event.logStillAlive w.pid grace, Event.kill w.pid]
            else [])
        ++ [Event.logMasterExit],
       { st with workers := st.workers.map (fun w =>
           if w.alive then { w with alive := false } else w) })
  | some _ =>
      ([Event.serverStoppedSignal, Event.logSlaveReceived signum,
        Event.serverStop (grace - 3), Event.sleep (grace - 3)], st)

end Server

/-- The port that `sock.getsockname()[1]` reports after `sock.bind(("", port))`:
the OS-assigned ephemeral port when `port = 0`, otherwise `port` itself. -/
def getsocknamePort (osm : SockOS) (port : Nat) : Nat :=
  if port = 0 then osm.ephemeralPort else port

/-- `_reserve_address_port(host, port)` as a bracket: open an `AF_INET6`
stream socket, set `SO_REUSEPORT`, raise `RuntimeError` if the option reads
back 0 (before the `try`, so no close happens on that path), otherwise
`bind(("", port))` — note the `host` argument is ignored — run the body with
`sock.getsockname()[1]`, and close the socket in the `finally` whether the
body returns normally or raises. -/
def reserve_address_port {α : Type} (osm : SockOS) (host : String) (port : Nat)
    (body : Nat → List Event × Except String α) : List Event × Except String α :=
  let pre := [Event.sockOpen, Event.setReuseport]
  if osm.reuseportOk = false then
    (pre, Except.error "Failed to set SO_REUSEPORT.")
  else
    let r := body (getsocknamePort osm port)
    (pre ++ [Event.bindSock "" port] ++ r.1 ++ [Event.sockClose], r.2)

namespace Server

/-- `Server.run()`: start the prometheus http server if scraping is enabled,
register signal handlers, reserve the port, spawn `GRPC_WORKERS` processes
each targeting `_run_server` with bind address `"{host}:{port}"` (the
configured port, not the reserved one), append each to `self.workers`,
join them all, and after the reservation socket is closed run
`_clean_prometheus` and return `True`.  On a reservation failure the
exception propagates and the state is untouched. -/
def run (cfg : Config) (osm : SockOS) (st : ServerState) :
    List Event × ServerState × Except String Bool :=
  let promEv := if cfg.PROMETHEUS_SCRAPE then
    [Event.startPrometheusHttp cfg.PROMETHEUS_PORT] else []
  let bindAddress := cfg.GRPC_HOST ++ ":" ++ toString cfg.GRPC_PORT
  let newWorkers := (List.range cfg.GRPC_WORKERS).map
    (fun i => ({ pid := i, alive := true } : WorkerProcess))
  let allWorkers := st.workers ++ newWorkers
  let r := reserve_address_port osm cfg.GRPC_HOST cfg.GRPC_PORT (fun _ =>
      (newWorkers.map (fun _ => Event.spawn bindAddress)
        ++ allWorkers.map (fun w => Event.join w.pid),
       Except.ok ()))
  match r.2 with
  | Except.error e =>
      (promEv ++ [Event.registerSignals] ++ r.1, st, Except.error e)
  | Except.ok _ =>
      (promEv ++ [Event.registerSignals] ++ r.1
        ++ (if cfg.PROMETHEUS_SCRAPE then [Event.cleanPrometheus] else []),
       { st with workers := allWorkers.map (fun w => { w with alive := false }) },
       Except.ok true)

end Server

/-! ### Helper lemmas about event ordering in traces -/

/-- If no element of `B` satisfies `P`, an index of `A ++ B` holding a
`P`-element lies in the `A` part. -/
theorem append_index_lt {α : Type} {A B : List α} {P : α → Prop}
    (hB : ∀ e ∈ B, ¬ P e) {i : Nat} (hi : i < (A ++ B).length)
    (hP : P ((A ++ B)[i])) : i < A.length := by
  by_contra hcon
  push_neg at hcon
  have hlen : i < A.length + B.length := by simpa [List.length_append] using hi
  have hlt : i - A.length < B.length := by omega
  have heq : (A ++ B)[i] = B[i - A.length] := List.getElem_append_right hcon
  exact hB _ (heq ▸ List.getElem_mem hlt) (heq ▸ hP)

/-- If no element of `A` satisfies `Q`, an index of `A ++ B` holding a
`Q`-element lies in the `B` part. -/
theorem append_index_ge {α : Type} {A B : List α} {Q : α → Prop}
    (hA : ∀ e ∈ A, ¬ Q e) {j : Nat} (hj : j < (A ++ B).length)
    (hQ : Q ((A ++ B)[j])) : A.length ≤ j := by
  by_contra hcon
  push_neg at hcon
  have heq : (A ++ B)[j] = A[j] := List.getElem_append_left hcon
  exact hA _ (heq ▸ List.getElem_mem hcon) (heq ▸ hQ)

/-- In `A ++ B`, if `P`-events occur only in `A` and `Q`-events only in `B`,
every `P`-index precedes every `Q`-index. -/
theorem append_ordering {α : Type} {A B : List α} {P Q : α → Prop}
    (hPB : ∀ e ∈ B, ¬ P e) (hQA : ∀ e ∈ A, ¬ Q e)
    {i j : Nat} (hi : i < (A ++ B).length) (hj : j < (A ++ B).length)
    (hP : P ((A ++ B)[i])) (hQ : Q ((A ++ B)[j])) : i < j :=
  lt_of_lt_of_le (append_index_lt hPB hi hP) (append_index_ge hQA hj hQ)

/-- In `A ++ B`, if `P`-events occur only in `A` and `Q`-events only in `B`,
every index holding a `P`-event precedes every index holding a `Q`-event
(optional-indexing form). -/
theorem append_ordering_getElem? {α : Type} {A B : List α} {P Q : α → Prop}
    (hPB : ∀ e ∈ B, ¬ P e) (hQA : ∀ e ∈ A, ¬ Q e)
    {i j : Nat} {x y : α} (hx : (A ++ B)[i]? = some x) (hP : P x)
    (hy : (A ++ B)[j]? = some y) (hQ : Q y) : i < j := by
  obtain ⟨hi, hxi⟩ := List.getElem?_eq_some_iff.1 hx
  obtain ⟨hj, hyj⟩ := List.getElem?_eq_some_iff.1 hy
  exact lt_of_lt_of_le (append_index_lt hPB hi (hxi ▸ hP))
    (append_index_ge hQA hj (hyj ▸ hQ))

/-- A mapped list whose image avoids `b` contains no occurrence of `b`. -/
theorem count_map_eq_zero {α β : Type} [DecidableEq β] (l : List α)
    (f : α → β) (b : β) (hf : ∀ a, f a ≠ b) : (l.map f).count b = 0 := by
  rw [List.count_eq_zero]
  intro hmem
  obtain ⟨a, _, hfa⟩ := List.mem_map.1 hmem
  exact hf a hfa

/-! ### Claims -/

/-- C2: the effective grace computed by the signal handler equals
`max g 5` when the configured `GRPC_GRACE` is truthy, equals exactly `5`
when it is falsy (unset / `None` / `0`), and is never less than `5`. -/
theorem C2_effective_grace (g : Option Int) :
    (∀ v : Int, g = some v → v ≠ 0 → effectiveGrace g = max v 5) ∧
    ((g = none ∨ g = some 0) → effectiveGrace g = 5) ∧
    (5 : Int) ≤ effectiveGrace g := by
  refine ⟨?_, ?_, ?_⟩
  · rintro v rfl hv
    simp [effectiveGrace, hv]
  · rintro (rfl | rfl) <;> simp [effectiveGrace]
  · cases g with
    | none => simp [effectiveGrace]
    | some v =>
        by_cases hv : v = 0
        · simp [effectiveGrace, hv]
        · simp [effectiveGrace, hv]

/-- C2 witness: instantiation at truthy grace 7 and at the falsy graces. -/
theorem C2_effective_grace_witness :
    effectiveGrace (some 7) = max 7 5 ∧ effectiveGrace (some 0) = 5 ∧
    effectiveGrace none = 5 :=
  ⟨(C2_effective_grace (some 7)).1 7 rfl (by decide),
   (C2_effective_grace (some 0)).2.1 (Or.inr rfl),
   (C2_effective_grace none).2.1 (Or.inl rfl)⟩

/-- C9: in the worker branch of the signal handler, the deadline passed to
`server.stop` and the sleep duration are both `effectiveGrace − 3`, which is
at least 2 and hence strictly positive for every configuration. -/
theorem C9_worker_deadline_positive (cfg : Config) (st : ServerState)
    (signum : Nat) (s : ServerHandle) (h : st.server = some s) :
    (∀ d : Int, Event.serverStop d ∈ (Server.stop_handler cfg st signum).1 →
      2 ≤ d ∧ 0 < d) ∧
    (∀ d : Int, Event.sleep d ∈ (Server.stop_handler cfg st signum).1 →
      2 ≤ d ∧ 0 < d) ∧
    2 ≤ effectiveGrace cfg.GRPC_GRACE - 3 := by
  have hge : (5 : Int) ≤ effectiveGrace cfg.GRPC_GRACE :=
    (C2_effective_grace cfg.GRPC_GRACE).2.2
  refine ⟨?_, ?_, by omega⟩
  · intro d hd
    simp [Server.stop_handler, h] at hd
    omega
  · intro d hd
    simp [Server.stop_handler, h] at hd
    omega

/-- C9 witness: a worker state with an unset grace. -/
theorem C9_worker_deadline_positive_witness :
    2 ≤ effectiveGrace (none : Option Int) - 3 :=
  (C9_worker_deadline_positive
    { GRPC_WORKERS := 1, GRPC_THREADS := none, GRPC_HOST := "h",
      GRPC_PORT := 50051, GRPC_GRACE := none, PROMETHEUS_SCRAPE := false,
      PROMETHEUS_PORT := 0 }
    { workers := [], stopped := false, server := some ⟨0⟩ } 15 ⟨0⟩ rfl).2.2

/-- C4: in a worker process (`self.server` set), the signal handler emits the
`server_stopped` notification, calls `server.stop` with deadline exactly
`effectiveGrace − 3`, and then sleeps that same reduced duration before
returning. -/
theorem C4_worker_branch (cfg : Config) (st : ServerState) (signum : Nat)
    (s : ServerHandle) (h : st.server = some s) :
    (Server.stop_handler cfg st signum).1 =
      [Event.serverStoppedSignal, Event.logSlaveReceived signum,
       Event.serverStop (effectiveGrace cfg.GRPC_GRACE - 3),
       Event.sleep (effectiveGrace cfg.GRPC_GRACE - 3)] := by
  simp [Server.stop_handler, h]

/-- C1: in the master process (`self.server` is `None`), the signal handler
emits the `server_stopped` notification, sleeps the full effective grace,
and then kills a tracked worker if and only if it is still alive; the sleep
precedes every kill. -/
theorem C1_master_branch (cfg : Config) (st : ServerState) (signum : Nat)
    (h : st.server = none) :
    Event.serverStoppedSignal ∈ (Server.stop_handler cfg st signum).1 ∧
    Event.sleep (effectiveGrace cfg.GRPC_GRACE) ∈
      (Server.stop_handler cfg st signum).1 ∧
    (∀ w ∈ st.workers, w.alive = true →
      Event.kill w.pid ∈ (Server.stop_handler cfg st signum).1) ∧
    (∀ p : Nat, Event.kill p ∈ (Server.stop_handler cfg st signum).1 →
      ∃ w ∈ st.workers, w.pid = p ∧ w.alive = true) ∧
    (∀ i j : Nat,
      (Server.stop_handler cfg st signum).1[i]? =
        some (Event.sleep (effectiveGrace cfg.GRPC_GRACE)) →
      (∃ p, (Server.stop_handler cfg st signum).1[j]? = some (Event.kill p)) →
      i < j) := by
  have htr : (Server.stop_handler cfg st signum).1 =
      [Event.logMasterReceived signum (effectiveGrace cfg.GRPC_GRACE),
       Event.serverStoppedSignal, Event.sleep (effectiveGrace cfg.GRPC_GRACE)]
      ++ (st.workers.flatMap (fun w =>
            if w.alive then
              [Event.logStillAlive w.pid (effectiveGrace cfg.GRPC_GRACE),
               Event.kill w.pid]
            else [])
          ++ [Event.logMasterExit]) := by
    simp [Server.stop_handler, h]
  refine ⟨?_, ?_, ?_, ?_, ?_⟩
  · rw [htr]; simp
  · rw [htr]; simp
  · intro w hw hal
    rw [htr]
    simp only [List.mem_append, List.mem_flatMap]
    exact Or.inr (Or.inl ⟨w, hw, by simp [hal]⟩)
  · intro p hp
    rw [htr] at hp
    rcases List.mem_append.1 hp with hp1 | hp2
    · simp at hp1
    · rcases List.mem_append.1 hp2 with hpF | hpE
      · obtain ⟨w, hw, hmem⟩ := List.mem_flatMap.1 hpF
        cases hal : w.alive with
        | false => rw [hal] at hmem; simp at hmem
        | true =>
            rw [hal] at hmem
            simp at hmem
            exact ⟨w, hw, hmem.symm, hal⟩
      · simp at hpE
  · intro i j hsleep hkill
    obtain ⟨p, hkill⟩ := hkill
    rw [htr] at hsleep hkill
    refine append_ordering_getElem?
      (P := fun e => e = Event.sleep (effectiveGrace cfg.GRPC_GRACE))
      (Q := fun e => ∃ q, e = Event.kill q) ?_ ?_ hsleep rfl hkill ⟨p, rfl⟩
    · intro e he
      simp only [List.mem_append, List.mem_flatMap, List.mem_singleton] at he
      rcases he with ⟨w, hw, hmem⟩ | he
      · cases hal : w.alive with
        | false => rw [hal] at hmem; simp at hmem
        | true =>
            rw [hal] at hmem
            simp at hmem
            rcases hmem with h1 | h1 <;> simp [h1]
      · simp [he]
    · intro e he
      simp at he
      rcases he with h1 | h1 | h1 <;> simp [h1]

/-- C1 witness: master state with one live and one already-exited worker:
the live worker (pid 3) is killed, the dead one (pid 4) is not. -/
theorem C1_master_branch_witness :
    Event.kill 3 ∈
      (Server.stop_handler
        { GRPC_WORKERS := 2, GRPC_THREADS := none, GRPC_HOST := "h",
          GRPC_PORT := 50051, GRPC_GRACE := some 10,
          PROMETHEUS_SCRAPE := false, PROMETHEUS_PORT := 0 }
        { workers := [⟨3, true⟩, ⟨4, false⟩], stopped := false,
          server := none } 2).1 ∧
    Event.kill 4 ∉
      (Server.stop_handler
        { GRPC_WORKERS := 2, GRPC_THREADS := none, GRPC_HOST := "h",
          GRPC_PORT := 50051, GRPC_GRACE := some 10,
          PROMETHEUS_SCRAPE := false, PROMETHEUS_PORT := 0 }
        { workers := [⟨3, true⟩, ⟨4, false⟩], stopped := false,
          server := none } 2).1 := by
  constructor
  · exact ((C1_master_branch _
      { workers := [⟨3, true⟩, ⟨4, false⟩], stopped := false, server := none }
      2 rfl).2.2.1 ⟨3, true⟩ (by decide) rfl)
  · intro hmem
    obtain ⟨w, hw, hpid, hal⟩ := (C1_master_branch
      { GRPC_WORKERS := 2, GRPC_THREADS := none, GRPC_HOST := "h",
        GRPC_PORT := 50051, GRPC_GRACE := some 10,
        PROMETHEUS_SCRAPE := false, PROMETHEUS_PORT := 0 }
      { workers := [⟨3, true⟩, ⟨4, false⟩], stopped := false, server := none }
      2 rfl).2.2.2.1 4 hmem
    simp only [List.mem_cons, List.not_mem_nil, or_false] at hw
    rcases hw with rfl | rfl
    · exact absurd hpid (by decide)
    · exact absurd hal (by decide)

/-- C8: `self._stopped` is set to `False` in `__init__` and is never written
or read afterwards: both `run` and the signal handler leave it unchanged,
and the handler emits the `server_stopped` notification from any state — no
single-fire latch guards a repeated signal. -/
theorem C8_no_stop_latch :
    initServerState.stopped = false ∧
    (∀ cfg st signum, ((Server.stop_handler cfg st signum).2).stopped =
      st.stopped) ∧
    (∀ cfg osm st, ((Server.run cfg osm st).2.1).stopped = st.stopped) ∧
    (∀ cfg st signum, Event.serverStoppedSignal ∈
      (Server.stop_handler cfg st signum).1) := by
  refine ⟨rfl, ?_, ?_, ?_⟩
  · intro cfg st signum
    cases hs : st.server <;> simp [Server.stop_handler, hs]
  · intro cfg osm st
    cases hr : osm.reuseportOk <;>
      simp [Server.run, reserve_address_port, hr]
  · intro cfg st signum
    cases hs : st.server <;> simp [Server.stop_handler, hs]

/-- C4 witness: a concrete worker state with grace 30. -/
theorem C4_worker_branch_witness :
    (Server.stop_handler
      { GRPC_WORKERS := 2, GRPC_THREADS := some 4, GRPC_HOST := "h",
        GRPC_PORT := 50051, GRPC_GRACE := some 30, PROMETHEUS_SCRAPE := false,
        PROMETHEUS_PORT := 0 }
      { workers := [], stopped := false, server := some ⟨1⟩ } 15).1 =
      [Event.serverStoppedSignal, Event.logSlaveReceived 15,
       Event.serverStop (effectiveGrace (some 30) - 3),
       Event.sleep (effectiveGrace (some 30) - 3)] :=
  C4_worker_branch _ _ 15 ⟨1⟩ rfl

/-- C3: when the OS rejects `SO_REUSEPORT` (`getsockopt` reads back 0),
`run` propagates the `RuntimeError` from `_reserve_address_port`, the
tracked worker list stays empty, and no worker process is ever spawned. -/
theorem C3_reserve_failure_aborts (cfg : Config) (osm : SockOS)
    (st : ServerState) (h : osm.reuseportOk = false) (hw : st.workers = []) :
    (Server.run cfg osm st).2.2 =
      Except.error "Failed to set SO_REUSEPORT." ∧
    ((Server.run cfg osm st).2.1).workers = [] ∧
    ∀ a : String, Event.spawn a ∉ (Server.run cfg osm st).1 := by
  cases hps : cfg.PROMETHEUS_SCRAPE <;>
    refine ⟨?_, ?_, ?_⟩ <;>
      simp [Server.run, reserve_address_port, h, hw, hps]

/-- C3 witness: concrete configuration on an OS rejecting the reuse option. -/
theorem C3_reserve_failure_aborts_witness :
    (Server.run
      { GRPC_WORKERS := 4, GRPC_THREADS := some 8, GRPC_HOST := "h",
        GRPC_PORT := 50051, GRPC_GRACE := some 10,
        PROMETHEUS_SCRAPE := true, PROMETHEUS_PORT := 9090 }
      { reuseportOk := false, ephemeralPort := 0 } initServerState).2.2 =
      Except.error "Failed to set SO_REUSEPORT." ∧
    ((Server.run
      { GRPC_WORKERS := 4, GRPC_THREADS := some 8, GRPC_HOST := "h",
        GRPC_PORT := 50051, GRPC_GRACE := some 10,
        PROMETHEUS_SCRAPE := true, PROMETHEUS_PORT := 9090 }
      { reuseportOk := false, ephemeralPort := 0 } initServerState).2.1).workers
      = [] :=
  have h := C3_reserve_failure_aborts
    { GRPC_WORKERS := 4, GRPC_THREADS := some 8, GRPC_HOST := "h",
      GRPC_PORT := 50051, GRPC_GRACE := some 10,
      PROMETHEUS_SCRAPE := true, PROMETHEUS_PORT := 9090 }
    { reuseportOk := false, ephemeralPort := 0 } initServerState rfl rfl
  ⟨h.1, h.2.1⟩

/-- C5 counterexample: the claim says the reservation socket is bound to the
given host; in fact `_reserve_address_port` ignores its `host` argument and
binds to the wildcard address `""`.  With host `"127.0.0.1"` the trace holds
a bind to `("", 50051)` and no bind to `("127.0.0.1", 50051)`. -/
theorem C5_reserve_counterexample :
    Event.bindSock "127.0.0.1" 50051 ∉
      (reserve_address_port ⟨true, 7⟩ "127.0.0.1" 50051
        (fun p => ([], Except.ok p))).1 ∧
    Event.bindSock "" 50051 ∈
      (reserve_address_port ⟨true, 7⟩ "127.0.0.1" 50051
        (fun p => ([], Except.ok p))).1 := by
  decide

/-- C5 (amended): `_reserve_address_port(host, port)` opens a stream socket
with the reuse-port option enabled, binds it to the wildcard address `""`
and the given port — the `host` argument is ignored — and yields the
effective bound port: the OS-assigned ephemeral port when `port = 0`,
otherwise the port itself; the socket is closed after the body. -/
theorem C5_reserve_amended {α : Type} (osm : SockOS) (host : String)
    (port : Nat) (body : Nat → List Event × Except String α)
    (h : osm.reuseportOk = true) :
    (reserve_address_port osm host port body).1 =
      [Event.sockOpen, Event.setReuseport, Event.bindSock "" port]
        ++ (body (getsocknamePort osm port)).1 ++ [Event.sockClose] ∧
    (reserve_address_port osm host port body).2 =
      (body (getsocknamePort osm port)).2 ∧
    (port = 0 → getsocknamePort osm port = osm.ephemeralPort) ∧
    (port ≠ 0 → getsocknamePort osm port = port) := by
  refine ⟨?_, ?_, ?_, ?_⟩
  · simp [reserve_address_port, h]
  · simp [reserve_address_port, h]
  · intro hp; simp [getsocknamePort, hp]
  · intro hp; simp [getsocknamePort, hp]

/-- C5 amended witness: ephemeral reservation (port 0) on an OS assigning
port 7; the body sees port 7 and the bind in the trace is to `("", 0)`. -/
theorem C5_reserve_amended_witness :
    (reserve_address_port ⟨true, 7⟩ "127.0.0.1" 0
      (fun p => ([Event.join p], Except.ok p))).1 =
      [Event.sockOpen, Event.setReuseport, Event.bindSock "" 0]
        ++ [Event.join (getsocknamePort ⟨true, 7⟩ 0)] ++ [Event.sockClose] ∧
    getsocknamePort (⟨true, 7⟩ : SockOS) 0 = 7 :=
  ⟨(C5_reserve_amended ⟨true, 7⟩ "127.0.0.1" 0
      (fun p => ([Event.join p], Except.ok p)) rfl).1,
   (C5_reserve_amended ⟨true, 7⟩ "127.0.0.1" 0
      (fun p => ([Event.join p], Except.ok p)) rfl).2.2.1 rfl⟩

/-- C10: once the reservation socket is bound, it is closed exactly once on
every exit path: for any body (raising or returning normally) the bracket's
trace holds exactly one close and the body's outcome propagates unchanged;
`run`'s own trace holds exactly one close whenever reservation succeeds. -/
theorem C10_socket_closed_once {α : Type} (osm : SockOS) (host : String)
    (port : Nat) (body : Nat → List Event × Except String α)
    (h : osm.reuseportOk = true)
    (hb : (body (getsocknamePort osm port)).1.count Event.sockClose = 0) :
    (reserve_address_port osm host port body).1.count Event.sockClose = 1 ∧
    (reserve_address_port osm host port body).2 =
      (body (getsocknamePort osm port)).2 ∧
    (∀ cfg st, (Server.run cfg osm st).1.count Event.sockClose = 1) := by
  refine ⟨?_, ?_, ?_⟩
  · simp [reserve_address_port, h, hb]
  · simp [reserve_address_port, h]
  · intro cfg st
    cases hps : cfg.PROMETHEUS_SCRAPE <;>
      simp [Server.run, reserve_address_port, h, hps, count_map_eq_zero]

/-- C10 witness: a body that raises (`Except.error "boom"`) still leaves
exactly one socket close in the trace, and the error propagates. -/
theorem C10_socket_closed_once_witness :
    (reserve_address_port ⟨true, 7⟩ "h" 0
      (fun _ => ([], (Except.error "boom" : Except String Unit)))).1.count
        Event.sockClose = 1 ∧
    (reserve_address_port ⟨true, 7⟩ "h" 0
      (fun _ => ([], (Except.error "boom" : Except String Unit)))).2 =
      Except.error "boom" :=
  have h := C10_socket_closed_once ⟨true, 7⟩ "h" 0
    (fun _ => ([], (Except.error "boom" : Except String Unit))) rfl rfl
  ⟨h.1, h.2.1⟩

/-- A mapped list whose image always equals `b` counts `b` once per
element. -/
theorem count_map_eq_length {α β : Type} [DecidableEq β] (l : List α)
    (f : α → β) (b : β) (hf : ∀ a, f a = b) : (l.map f).count b = l.length := by
  induction l with
  | nil => simp
  | cons x xs ih => simp [hf, ih]

/-- C6: with reservation succeeding, `run` spawns exactly `GRPC_WORKERS`
worker processes, every spawn uses the identical bind address
`"{host}:{port}"` built from the configured host and port, and each new
worker is appended to the tracked worker list. -/
theorem C6_spawn_count (cfg : Config) (osm : SockOS) (st : ServerState)
    (h : osm.reuseportOk = true) (hN : 1 ≤ cfg.GRPC_WORKERS) :
    (Server.run cfg osm st).1.count
        (Event.spawn (cfg.GRPC_HOST ++ ":" ++ toString cfg.GRPC_PORT)) =
      cfg.GRPC_WORKERS ∧
    (∀ a : String, Event.spawn a ∈ (Server.run cfg osm st).1 →
      a = cfg.GRPC_HOST ++ ":" ++ toString cfg.GRPC_PORT) ∧
    ((Server.run cfg osm st).2.1).workers.length =
      st.workers.length + cfg.GRPC_WORKERS := by
  refine ⟨?_, ?_, ?_⟩
  · cases hps : cfg.PROMETHEUS_SCRAPE <;>
      simp [Server.run, reserve_address_port, h, hps, count_map_eq_zero,
        count_map_eq_length]
  · intro a ha
    cases hps : cfg.PROMETHEUS_SCRAPE <;>
      simp [Server.run, reserve_address_port, h, hps] at ha <;>
      simp [ha]
  · cases hps : cfg.PROMETHEUS_SCRAPE <;>
      simp [Server.run, reserve_address_port, h, hps]

/-- C6 witness: three workers on host `"h"`, port 50051. -/
theorem C6_spawn_count_witness :
    (Server.run
      { GRPC_WORKERS := 3, GRPC_THREADS := none, GRPC_HOST := "h",
        GRPC_PORT := 50051, GRPC_GRACE := none, PROMETHEUS_SCRAPE := false,
        PROMETHEUS_PORT := 0 }
      { reuseportOk := true, ephemeralPort := 0 } initServerState).1.count
        (Event.spawn ("h" ++ ":" ++ toString 50051)) = 3 ∧
    ((Server.run
      { GRPC_WORKERS := 3, GRPC_THREADS := none, GRPC_HOST := "h",
        GRPC_PORT := 50051, GRPC_GRACE := none, PROMETHEUS_SCRAPE := false,
        PROMETHEUS_PORT := 0 }
      { reuseportOk := true, ephemeralPort := 0 }
      initServerState).2.1).workers.length = 0 + 3 :=
  have h := C6_spawn_count
    { GRPC_WORKERS := 3, GRPC_THREADS := none, GRPC_HOST := "h",
      GRPC_PORT := 50051, GRPC_GRACE := none, PROMETHEUS_SCRAPE := false,
      PROMETHEUS_PORT := 0 }
    { reuseportOk := true, ephemeralPort := 0 } initServerState rfl
    (by decide)
  ⟨h.1, h.2.2⟩

/-- C7: when reservation succeeds, `run` joins every worker (all spawned
pids and any previously tracked ones), only then closes the reservation
socket, then runs prometheus cleanup exactly when scraping is enabled, and
returns `True`: in the trace every join index precedes the close and any
cleanup index, and the close index precedes any cleanup index. -/
theorem C7_run_ordering (cfg : Config) (osm : SockOS) (st : ServerState)
    (h : osm.reuseportOk = true) :
    (Server.run cfg osm st).2.2 = Except.ok true ∧
    (∀ i : Nat, i < cfg.GRPC_WORKERS →
      Event.join i ∈ (Server.run cfg osm st).1) ∧
    (∀ w ∈ st.workers, Event.join w.pid ∈ (Server.run cfg osm st).1) ∧
    (Event.cleanPrometheus ∈ (Server.run cfg osm st).1 ↔
      cfg.PROMETHEUS_SCRAPE = true) ∧
    (∀ i j p : Nat,
      (Server.run cfg osm st).1[i]? = some (Event.join p) →
      ((Server.run cfg osm st).1[j]? = some Event.sockClose ∨
       (Server.run cfg osm st).1[j]? = some Event.cleanPrometheus) →
      i < j) ∧
    (∀ i j : Nat,
      (Server.run cfg osm st).1[i]? = some Event.sockClose →
      (Server.run cfg osm st).1[j]? = some Event.cleanPrometheus →
      i < j) := by
  have htr : (Server.run cfg osm st).1 =
      ((if cfg.PROMETHEUS_SCRAPE then
          [Event.startPrometheusHttp cfg.PROMETHEUS_PORT] else [])
        ++ [Event.registerSignals, Event.sockOpen, Event.setReuseport,
            Event.bindSock "" cfg.GRPC_PORT]
        ++ (List.range cfg.GRPC_WORKERS).map (fun _ =>
              Event.spawn (cfg.GRPC_HOST ++ ":" ++ toString cfg.GRPC_PORT))
        ++ st.workers.map (fun w => Event.join w.pid)
        ++ (List.range cfg.GRPC_WORKERS).map (fun i => Event.join i))
      ++ ([Event.sockClose]
        ++ (if cfg.PROMETHEUS_SCRAPE then [Event.cleanPrometheus] else [])) := by
    cases hps : cfg.PROMETHEUS_SCRAPE <;>
      simp [Server.run, reserve_address_port, h, hps, Function.comp_def]
  have htr2 : (Server.run cfg osm st).1 =
      (((if cfg.PROMETHEUS_SCRAPE then
          [Event.startPrometheusHttp cfg.PROMETHEUS_PORT] else [])
        ++ [Event.registerSignals, Event.sockOpen, Event.setReuseport,
            Event.bindSock "" cfg.GRPC_PORT]
        ++ (List.range cfg.GRPC_WORKERS).map (fun _ =>
              Event.spawn (cfg.GRPC_HOST ++ ":" ++ toString cfg.GRPC_PORT))
        ++ st.workers.map (fun w => Event.join w.pid)
        ++ (List.range cfg.GRPC_WORKERS).map (fun i => Event.join i))
        ++ [Event.sockClose])
      ++ (if cfg.PROMETHEUS_SCRAPE then [Event.cleanPrometheus] else []) := by
    rw [htr]
    simp [List.append_assoc]
  refine ⟨?_, ?_, ?_, ?_, ?_, ?_⟩
  · simp [Server.run, reserve_address_port, h]
  · intro i hi
    rw [htr]
    exact List.mem_append_left _ (List.mem_append_right _
      (List.mem_map.2 ⟨i, List.mem_range.2 hi, rfl⟩))
  · intro w hw
    rw [htr]
    exact List.mem_append_left _ (List.mem_append_left _
      (List.mem_append_right _ (List.mem_map.2 ⟨w, hw, rfl⟩)))
  · constructor
    · intro hmem
      by_contra hps
      rw [Bool.not_eq_true] at hps
      rw [htr] at hmem
      simp [hps] at hmem
    · intro hps
      rw [htr]
      simp [hps]
  · intro i j p h1 h2
    have hPB : ∀ e ∈ [Event.sockClose]
        ++ (if cfg.PROMETHEUS_SCRAPE then [Event.cleanPrometheus] else []),
        ¬ e = Event.join p := by
      cases hps : cfg.PROMETHEUS_SCRAPE <;> simp [hps]
    have hQA : ∀ e ∈ (if cfg.PROMETHEUS_SCRAPE then
          [Event.startPrometheusHttp cfg.PROMETHEUS_PORT] else [])
        ++ [Event.registerSignals, Event.sockOpen, Event.setReuseport,
            Event.bindSock "" cfg.GRPC_PORT]
        ++ (List.range cfg.GRPC_WORKERS).map (fun _ =>
              Event.spawn (cfg.GRPC_HOST ++ ":" ++ toString cfg.GRPC_PORT))
        ++ st.workers.map (fun w => Event.join w.pid)
        ++ (List.range cfg.GRPC_WORKERS).map (fun i => Event.join i),
        ¬ (e = Event.sockClose ∨ e = Event.cleanPrometheus) := by
      intro e he hq
      rcases hq with rfl | rfl <;>
        cases hps : cfg.PROMETHEUS_SCRAPE <;> rw [hps] at he <;> simp at he
    rw [htr] at h1 h2
    rcases h2 with h2 | h2
    · exact append_ordering_getElem?
        (P := fun e => e = Event.join p)
        (Q := fun e => e = Event.sockClose ∨ e = Event.cleanPrometheus)
        hPB hQA h1 rfl h2 (Or.inl rfl)
    · exact append_ordering_getElem?
        (P := fun e => e = Event.join p)
        (Q := fun e => e = Event.sockClose ∨ e = Event.cleanPrometheus)
        hPB hQA h1 rfl h2 (Or.inr rfl)
  · intro i j h1 h2
    have hPB : ∀ e ∈ (if cfg.PROMETHEUS_SCRAPE then
          [Event.cleanPrometheus] else []), ¬ e = Event.sockClose := by
      cases hps : cfg.PROMETHEUS_SCRAPE <;> simp [hps]
    have hQA : ∀ e ∈ ((if cfg.PROMETHEUS_SCRAPE then
          [Event.startPrometheusHttp cfg.PROMETHEUS_PORT] else [])
        ++ [Event.registerSignals, Event.sockOpen, Event.setReuseport,
            Event.bindSock "" cfg.GRPC_PORT]
        ++ (List.range cfg.GRPC_WORKERS).map (fun _ =>
              Event.spawn (cfg.GRPC_HOST ++ ":" ++ toString cfg.GRPC_PORT))
        ++ st.workers.map (fun w => Event.join w.pid)
        ++ (List.range cfg.GRPC_WORKERS).map (fun i => Event.join i))
        ++ [Event.sockClose],
        ¬ e = Event.cleanPrometheus := by
      intro e he hq
      subst hq
      cases hps : cfg.PROMETHEUS_SCRAPE <;> rw [hps] at he <;> simp at he
    rw [htr2] at h1 h2
    exact append_ordering_getElem?
      (P := fun e => e = Event.sockClose)
      (Q := fun e => e = Event.cleanPrometheus)
      hPB hQA h1 rfl h2 rfl

/-- C7 witness: two workers, scraping enabled, reservation succeeding. -/
theorem C7_run_ordering_witness :
    (Server.run
      { GRPC_WORKERS := 2, GRPC_THREADS := none, GRPC_HOST := "h",
        GRPC_PORT := 50051, GRPC_GRACE := some 5, PROMETHEUS_SCRAPE := true,
        PROMETHEUS_PORT := 9090 }
      { reuseportOk := true, ephemeralPort := 0 } initServerState).2.2 =
      Except.ok true ∧
    Event.join 0 ∈ (Server.run
      { GRPC_WORKERS := 2, GRPC_THREADS := none, GRPC_HOST := "h",
        GRPC_PORT := 50051, GRPC_GRACE := some 5, PROMETHEUS_SCRAPE := true,
        PROMETHEUS_PORT := 9090 }
      { reuseportOk := true, ephemeralPort := 0 } initServerState).1 ∧
    (Event.cleanPrometheus ∈ (Server.run
      { GRPC_WORKERS := 2, GRPC_THREADS := none, GRPC_HOST := "h",
        GRPC_PORT := 50051, GRPC_GRACE := some 5, PROMETHEUS_SCRAPE := true,
        PROMETHEUS_PORT := 9090 }
      { reuseportOk := true, ephemeralPort := 0 } initServerState).1 ↔
      true = true) :=
  have h := C7_run_ordering
    { GRPC_WORKERS := 2, GRPC_THREADS := none, GRPC_HOST := "h",
      GRPC_PORT := 50051, GRPC_GRACE := some 5, PROMETHEUS_SCRAPE := true,
      PROMETHEUS_PORT := 9090 }
    { reuseportOk := true, ephemeralPort := 0 } initServerState rfl
  ⟨h.1, h.2.1 0 (by decide), h.2.2.2.1⟩

end Sea
